import Mathlib

/-!
Shallow embedding of the access-control and quota-enforcement engine of the
UnRepo API (src/routes/research.ts, src/routes/chatbot.ts, src/routes/wallet.ts).
The persistence layer (Prisma) is modelled as an explicit record of lists; each
route handler or verification helper becomes a pure function from that state
(plus the request inputs and the current time in milliseconds) to a result and
a new state.  External collaborators (GitHub fetch, LLM calls, nacl signature
verification, Helius token lookup) are modelled as oracle parameters or assumed
to succeed, since every claim under study is decided before or independently of
them.
-/

namespace UnRepo

/-- Embeds JavaScript String.prototype.startsWith on the char-list level:
true when the second list is an initial segment of the first. -/
def listStarts : List Char → List Char → Bool
  | _, [] => true
  | [], _ :: _ => false
  | c :: cs, p :: ps => c == p && listStarts cs ps

/-- JS `s.startsWith(p)` for the strings used by the API. -/
def strStarts (s p : String) : Bool := listStarts s.data p.data

/-- Contiguous-substring search on char lists (JS String.prototype.includes). -/
def listHas : List Char → List Char → Bool
  | [], pat => pat.isEmpty
  | c :: tl, pat => listStarts (c :: tl) pat || listHas tl pat

/-- JS `s.includes(p)`, used by the route error handlers to pick a status. -/
def strIncludes (s p : String) : Bool := listHas s.data p.data

/-- prisma enum ApiKeyType: the capability class of an API key. -/
inductive KeyType where
  | RESEARCH
  | CHATBOT
  deriving DecidableEq, Repr

/-- prisma model User: only the fields the quota engine reads. -/
structure UserRec where
  id : Nat
  paymentVerified : Bool
  isTokenHolder : Bool
  deriving DecidableEq, Repr

/-- prisma model ApiKey: bearer token record. -/
structure ApiKeyRec where
  id : Nat
  key : String
  type : KeyType
  isActive : Bool
  usageCount : Nat
  userId : Nat
  lastUsedAt : Option Int
  deriving DecidableEq, Repr

/-- prisma model ApiUsage: one row per logged call; `createdAt` in ms. -/
structure UsageEvent where
  userId : Nat
  apiKeyId : Option Nat
  endpoint : String
  method : String
  requestData : String
  createdAt : Int
  deriving DecidableEq, Repr

/-- prisma model WalletUser. -/
structure WalletRec where
  walletAddress : String
  signatureHash : String
  isVerified : Bool
  isTokenHolder : Bool
  tokenBalance : Int
  lastTokenCheck : Option Int
  researchUsed : Nat
  researchLimit : Nat
  chatUsed : Nat
  chatLimit : Nat
  lastUsedAt : Option Int
  deriving DecidableEq, Repr

/-- The persistent store the Prisma client reads and writes. -/
structure DB where
  users : List UserRec
  apiKeys : List ApiKeyRec
  usage : List UsageEvent
  wallets : List WalletRec
  deriving DecidableEq, Repr

/-- `prisma.apiKey.findFirst({where: {key, type, isActive: true}, include: {user}})`:
first active key matching the bearer string and expected type, resolved together
with its owning user (the store's foreign key makes the user lookup total; a
dangling `userId` is modelled as not-found). -/
def lookupActiveKey (db : DB) (s : String) (t : KeyType) : Option (ApiKeyRec × UserRec) :=
  match db.apiKeys.find? (fun k => k.key == s && decide (k.type = t) && k.isActive) with
  | none => none
  | some k =>
    match db.users.find? (fun u => u.id == k.userId) with
    | none => none
    | some u => some (k, u)

/-- `prisma.apiUsage.count({where: {apiKeyId, createdAt: {gte: now - 3600000}}})`. -/
def countRecent (db : DB) (kid : Nat) (now : Int) : Nat :=
  (db.usage.filter (fun e => e.apiKeyId == some kid && decide (now - 3600000 ≤ e.createdAt))).length

/-- `prisma.apiKey.update({where: {id}, data: {usageCount: {increment: 1}, lastUsedAt: now}})`. -/
def incrementKey (db : DB) (kid : Nat) (now : Int) : DB :=
  { db with apiKeys := db.apiKeys.map (fun r =>
      if r.id == kid then { r with usageCount := r.usageCount + 1, lastUsedAt := some now } else r) }

def researchMalformedMsg : String :=
  "Invalid API key format. Research API keys must start with unrepo_research_"

def chatbotMalformedMsg : String :=
  "Invalid API key format. Chatbot API keys must start with unrepo_chatbot_"

def keyNotFoundMsg : String := "Invalid or inactive API key"

def freeLimitMsg : String :=
  "Free tier limit reached (5 calls). Please upgrade to continue using this API."

def researchRateMsg : String := "Rate limit exceeded. Maximum 100 requests per hour."

def chatbotRateMsg : String := "Rate limit exceeded. Maximum 200 requests per hour."

def walletNotRegisteredMsg : String :=
  "Wallet not registered. Please connect and register your wallet first."

def chatLimitMsg (limit : Nat) : String :=
  "Chat limit reached (" ++ toString limit ++
    " free chats). Hold $UNREPO tokens for unlimited access or use an API key."

/-- The read-and-decide part of research.ts `verifyApiKey` (everything before the
`prisma.apiKey.update` write): prefix check, key lookup, tier classification,
free-tier lifetime cap, premium rolling-window check. -/
def decideResearchKey (db : DB) (now : Int) (apiKey : String) : Except String (ApiKeyRec × UserRec) :=
  if !(strStarts apiKey "unrepo_research_") then
    .error researchMalformedMsg
  else
    match lookupActiveKey db apiKey KeyType.RESEARCH with
    | none => .error keyNotFoundMsg
    | some (k, u) =>
      let isPremium := u.paymentVerified || u.isTokenHolder
      if !isPremium && decide (5 ≤ k.usageCount) then
        .error freeLimitMsg
      else if isPremium && decide (100 ≤ countRecent db k.id now) then
        .error researchRateMsg
      else
        .ok (k, u)

/-- research.ts `verifyApiKey`: the decision followed by the usage-stats write.
Returns the key and user as read (pre-increment) plus the updated store. -/
def verifyApiKeyResearch (db : DB) (now : Int) (apiKey : String) :
    Except String (ApiKeyRec × UserRec × DB) :=
  match decideResearchKey db now apiKey with
  | .error e => .error e
  | .ok (k, u) => .ok (k, u, incrementKey db k.id now)

/-- The read-and-decide part of chatbot.ts `verifyApiKey` (rate ceiling 200). -/
def decideChatbotKey (db : DB) (now : Int) (apiKey : String) : Except String (ApiKeyRec × UserRec) :=
  if !(strStarts apiKey "unrepo_chatbot_") then
    .error chatbotMalformedMsg
  else
    match lookupActiveKey db apiKey KeyType.CHATBOT with
    | none => .error keyNotFoundMsg
    | some (k, u) =>
      let isPremium := u.paymentVerified || u.isTokenHolder
      if !isPremium && decide (5 ≤ k.usageCount) then
        .error freeLimitMsg
      else if isPremium && decide (200 ≤ countRecent db k.id now) then
        .error chatbotRateMsg
      else
        .ok (k, u)

/-- chatbot.ts `verifyApiKey`: decision followed by the usage-stats write. -/
def verifyApiKeyChatbot (db : DB) (now : Int) (apiKey : String) :
    Except String (ApiKeyRec × UserRec × DB) :=
  match decideChatbotKey db now apiKey with
  | .error e => .error e
  | .ok (k, u) => .ok (k, u, incrementKey db k.id now)

/-- `prisma.walletUser.findUnique({where: {walletAddress}})`. -/
def findWallet (db : DB) (addr : String) : Option WalletRec :=
  db.wallets.find? (fun w => w.walletAddress == addr)

/-- `prisma.walletUser.update` incrementing `chatUsed` and stamping `lastUsedAt`. -/
def incrementWalletChat (db : DB) (addr : String) (now : Int) : DB :=
  { db with wallets := db.wallets.map (fun w =>
      if w.walletAddress == addr then { w with chatUsed := w.chatUsed + 1, lastUsedAt := some now } else w) }

/-- chatbot.ts `verifyWalletAccess`: wallet lookup, chat-limit check (no
token-holder test appears in this function), then the chatUsed increment. -/
def verifyWalletAccess (db : DB) (now : Int) (walletAddress : String) :
    Except String (WalletRec × DB) :=
  match findWallet db walletAddress with
  | none => .error walletNotRegisteredMsg
  | some w =>
    if w.chatLimit ≤ w.chatUsed then
      .error (chatLimitMsg w.chatLimit)
    else
      .ok (w, incrementWalletChat db walletAddress now)

/-- wallet.ts POST /usage update: conditionally increments the counter named by
`type` and stamps `lastUsedAt`. -/
def incrementWalletUsage (db : DB) (addr ty : String) (now : Int) : DB :=
  { db with wallets := db.wallets.map (fun w =>
      if w.walletAddress == addr then
        { w with
          researchUsed := if ty == "research" then w.researchUsed + 1 else w.researchUsed,
          chatUsed := if ty == "chat" then w.chatUsed + 1 else w.chatUsed,
          lastUsedAt := some now }
      else w) }

/-- wallet.ts `router.post('/usage')`: returns the HTTP status and the updated
store.  Absent or JS-falsy body fields are modelled as `none`. -/
def walletUsagePost (db : DB) (now : Int) (walletAddress ty : Option String) : Nat × DB :=
  match walletAddress, ty with
  | some addr, some t =>
    if !(t == "research" || t == "chat") then (400, db)
    else
      match findWallet db addr with
      | none => (404, db)
      | some w =>
        if !w.isTokenHolder then
          if t == "research" && decide (w.researchLimit ≤ w.researchUsed) then (403, db)
          else if t == "chat" && decide (w.chatLimit ≤ w.chatUsed) then (403, db)
          else (200, incrementWalletUsage db addr t now)
        else (200, incrementWalletUsage db addr t now)
  | _, _ => (400, db)

/-- Result of `verifyTokenHolder` (Helius oracle), as consumed by registration. -/
structure TokenVerif where
  isTokenHolder : Bool
  tokenBalance : Int
  threshold : Int
  deriving DecidableEq, Repr

/-- The record `prisma.walletUser.create` builds during registration; fields not
named in the create call take the schema defaults (false / 0 / null). -/
def newWalletRec (addr sig : String) : WalletRec :=
  { walletAddress := addr, signatureHash := sig, isVerified := true,
    isTokenHolder := false, tokenBalance := 0, lastTokenCheck := none,
    researchUsed := 0, researchLimit := 1, chatUsed := 0, chatLimit := 5,
    lastUsedAt := none }

/-- The post-create token auto-check in wallet.ts registration: when the oracle
call succeeds and reports a holder, mark the wallet; when it throws (`.error`)
the failure is only logged. -/
def applyTokenCheck (db : DB) (addr : String) (tc : Except Unit TokenVerif) (now : Int) : DB :=
  match tc with
  | .error _ => db
  | .ok tv =>
    if tv.isTokenHolder then
      { db with wallets := db.wallets.map (fun w =>
          if w.walletAddress == addr then
            { w with isTokenHolder := true, tokenBalance := tv.tokenBalance, lastTokenCheck := some now }
          else w) }
    else db

/-- wallet.ts `router.post('/register')`.  `vr` is the outcome of
`nacl.sign.detached.verify` (an external crypto oracle): `.ok b` when it
returns `b`, `.error ()` when decoding/verification throws — in which case the
handler only logs and proceeds.  `tc` is the token-balance oracle.  Returns the
HTTP status, the updated store and the counters echoed in the response body. -/
def registerWallet (db : DB) (now : Int) (vr : Except Unit Bool) (tc : Except Unit TokenVerif)
    (walletAddress signature message : Option String) :
    Nat × DB × Option (Nat × Nat × Nat × Nat) :=
  match walletAddress, signature, message with
  | some addr, some sig, some _msg =>
    match findWallet db addr with
    | some w => (200, db, some (w.researchUsed, w.researchLimit, w.chatUsed, w.chatLimit))
    | none =>
      match vr with
      | .ok false => (401, db, none)
      | _ =>
        let db1 : DB := { db with wallets := db.wallets ++ [newWalletRec addr sig] }
        (200, applyTokenCheck db1 addr tc now, some (0, 1, 0, 5))
  | _, _, _ => (400, db, none)

/-- Body of the wallet.ts GET /validate response. -/
inductive ValidateResult where
  | badRequest
  | notRegistered
  | ok (valid : Bool) (researchUsed researchLimit chatUsed chatLimit : Nat)
  deriving DecidableEq, Repr

/-- wallet.ts `router.get('/validate')`: `canUse` starts true and is only
overwritten when `type` is exactly "research" or "chat". -/
def walletValidateGet (db : DB) (address ty : Option String) : ValidateResult :=
  match address with
  | none => .badRequest
  | some addr =>
    match findWallet db addr with
    | none => .notRegistered
    | some w =>
      let canUse : Bool :=
        if ty = some "research" then decide (w.researchUsed < w.researchLimit)
        else if ty = some "chat" then decide (w.chatUsed < w.chatLimit)
        else true
      .ok canUse w.researchUsed w.researchLimit w.chatUsed w.chatLimit

/-- The catch block of research.ts `router.post('/')`: status chosen by
substring tests on the thrown message. -/
def researchCatchStatus (msg : String) : Nat :=
  if strIncludes msg "limit" || strIncludes msg "Invalid" then 429
  else if strIncludes msg "not found" then 404
  else 500

/-- The catch block of chatbot.ts `router.post('/')`. -/
def chatbotCatchStatus (msg : String) : Nat :=
  if strIncludes msg "limit" || strIncludes msg "Invalid" || strIncludes msg "Wallet" then 429
  else 500

/-- `prisma.apiUsage.create`: appends one usage row.  `requestData` stands for
the JSON.stringify summary of the request body. -/
def pushUsage (db : DB) (uid : Nat) (kid : Option Nat) (endpoint method requestData : String)
    (now : Int) : DB :=
  { db with usage := db.usage ++
      [{ userId := uid, apiKeyId := kid, endpoint := endpoint, method := method,
         requestData := requestData, createdAt := now }] }

/-- research.ts `router.post('/')` up to HTTP status and store effects: missing
header → 401; verifyApiKey failure → status from the catch block; missing
repoUrl → 400 (after the increment already happened); otherwise the GitHub and
AI collaborators are assumed to succeed, one ApiUsage row is logged and the
handler responds 200. -/
def researchPost (db : DB) (now : Int) (apiKeyHdr repoUrl : Option String) : Nat × DB :=
  match apiKeyHdr with
  | none => (401, db)
  | some apiKey =>
    match verifyApiKeyResearch db now apiKey with
    | .error msg => (researchCatchStatus msg, db)
    | .ok (k, _u, db1) =>
      match repoUrl with
      | none => (400, db1)
      | some url =>
        (200, pushUsage db1 k.userId (some k.id) "/api/v1/research" "POST" ("repoUrl=" ++ url) now)

/-- chatbot.ts `router.post('/')` up to HTTP status and store effects: no
credential → 401; an API key (when present) takes precedence over a wallet;
ApiUsage is logged only when `userId && keyId` were set, i.e. only on the
API-key path; on the wallet path nothing is appended to the usage ledger.  The
AI collaborator is assumed to succeed; the chat-message table, which no claim
touches, is not modelled. -/
def chatbotPost (db : DB) (now : Int) (apiKeyHdr walletHdr message : Option String) : Nat × DB :=
  match apiKeyHdr, walletHdr with
  | none, none => (401, db)
  | some apiKey, _ =>
    match verifyApiKeyChatbot db now apiKey with
    | .error msg => (chatbotCatchStatus msg, db)
    | .ok (k, _u, db1) =>
      match message with
      | none => (400, db1)
      | some m =>
        (200, pushUsage db1 k.userId (some k.id) "/api/v1/chatbot" "POST" ("message=" ++ m) now)
  | none, some addr =>
    match verifyWalletAccess db now addr with
    | .error msg => (chatbotCatchStatus msg, db)
    | .ok (_w, db1) =>
      match message with
      | none => (400, db1)
      | some _m => (200, db1)

/-- Two concurrent research requests with the same key under the schedule where
both requests' reads (`findFirst`, `count`) complete before either
`apiKey.update` write runs — possible because `verifyApiKey` performs the read
and the write as separate awaited storage calls with no transaction.  Returns
whether each request was granted and the final store. -/
def interleavedResearchPair (db : DB) (now : Int) (s : String) : Bool × Bool × DB :=
  match decideResearchKey db now s, decideResearchKey db now s with
  | .ok (k1, _), .ok (k2, _) => (true, true, incrementKey (incrementKey db k1.id now) k2.id now)
  | .ok (k1, _), .error _ => (true, false, incrementKey db k1.id now)
  | .error _, .ok (k2, _) => (false, true, incrementKey db k2.id now)
  | .error _, .error _ => (false, false, db)

/-- Observer: the `usageCount` of the first key with the given id. -/
def keyCount (db : DB) (kid : Nat) : Option Nat :=
  (db.apiKeys.find? (fun r => r.id == kid)).map (fun r => r.usageCount)

/-- Observer: how many wallet rows carry the given address. -/
def walletRows (db : DB) (addr : String) : Nat :=
  (db.wallets.filter (fun w => w.walletAddress == addr)).length

/-- Observer: the four counters of the wallet at the given address. -/
def walletCounters (db : DB) (addr : String) : Option (Nat × Nat × Nat × Nat) :=
  (findWallet db addr).map (fun w => (w.researchUsed, w.researchLimit, w.chatUsed, w.chatLimit))

/-! ## Concrete fixtures used by witnesses and counterexamples -/

def exEmptyDb : DB := { users := [], apiKeys := [], usage := [], wallets := [] }

def exFreeUser : UserRec := { id := 1, paymentVerified := false, isTokenHolder := false }

def exPremUser : UserRec := { id := 2, paymentVerified := true, isTokenHolder := false }

def exResearchKey (c : Nat) : ApiKeyRec :=
  { id := 10, key := "unrepo_research_abc", type := .RESEARCH, isActive := true,
    usageCount := c, userId := 1, lastUsedAt := none }

def exChatKey (c : Nat) : ApiKeyRec :=
  { id := 11, key := "unrepo_chatbot_abc", type := .CHATBOT, isActive := true,
    usageCount := c, userId := 1, lastUsedAt := none }

def exDbR (c : Nat) : DB :=
  { users := [exFreeUser], apiKeys := [exResearchKey c], usage := [], wallets := [] }

def exDbC (c : Nat) : DB :=
  { users := [exFreeUser], apiKeys := [exChatKey c], usage := [], wallets := [] }

def exPremResearchKey (c : Nat) : ApiKeyRec :=
  { id := 12, key := "unrepo_research_abc", type := .RESEARCH, isActive := true,
    usageCount := c, userId := 2, lastUsedAt := none }

def exPremChatKey (c : Nat) : ApiKeyRec :=
  { id := 13, key := "unrepo_chatbot_abc", type := .CHATBOT, isActive := true,
    usageCount := c, userId := 2, lastUsedAt := none }

/-- A logged research call one hour window: timestamp inside the window when
"now" is 3600000. -/
def exEventR : UsageEvent :=
  { userId := 2, apiKeyId := some 12, endpoint := "/api/v1/research", method := "POST",
    requestData := "", createdAt := 1000000 }

def exEventC : UsageEvent :=
  { userId := 2, apiKeyId := some 13, endpoint := "/api/v1/chatbot", method := "POST",
    requestData := "", createdAt := 1000000 }

/-- An event strictly older than one hour when "now" is 3600000. -/
def exOldEvent : UsageEvent :=
  { userId := 2, apiKeyId := some 12, endpoint := "/api/v1/research", method := "POST",
    requestData := "", createdAt := -1 }

def exPremDbR (n : Nat) : DB :=
  { users := [exPremUser], apiKeys := [exPremResearchKey 0],
    usage := List.replicate n exEventR, wallets := [] }

def exPremDbC (n : Nat) : DB :=
  { users := [exPremUser], apiKeys := [exPremChatKey 0],
    usage := List.replicate n exEventC, wallets := [] }

def exWallet (ru rl cu cl : Nat) (th : Bool) : WalletRec :=
  { walletAddress := "wallet1", signatureHash := "sig", isVerified := true,
    isTokenHolder := th, tokenBalance := 0, lastTokenCheck := none,
    researchUsed := ru, researchLimit := rl, chatUsed := cu, chatLimit := cl,
    lastUsedAt := none }

def exWalletDb (ru rl cu cl : Nat) (th : Bool) : DB :=
  { users := [], apiKeys := [], usage := [], wallets := [exWallet ru rl cu cl th] }

/-! ## Shared lemmas -/

theorem findCount_map_inc (l : List ApiKeyRec) (kid : Nat) (now : Int) :
    ((l.map (fun r => if r.id == kid then { r with usageCount := r.usageCount + 1, lastUsedAt := some now } else r)).find?
        (fun r => r.id == kid)).map (fun r => r.usageCount)
    = ((l.find? (fun r => r.id == kid)).map (fun r => r.usageCount)).map (fun c => c + 1) := by
  induction l with
  | nil => rfl
  | cons r tl ih =>
    by_cases h : r.id = kid
    · simp [List.find?_cons_of_pos, h]
    · rw [List.map_cons, List.find?_cons_of_neg _ (by simp [h]),
        List.find?_cons_of_neg _ (by simp [h]), ih]

/-- The usage-stats write adds exactly 1 to the stored `usageCount` of the
updated key, as observed through `keyCount`. -/
theorem keyCount_incrementKey (db : DB) (kid : Nat) (now : Int) :
    keyCount (incrementKey db kid now) kid = (keyCount db kid).map (fun c => c + 1) := by
  simp only [keyCount, incrementKey]
  exact findCount_map_inc db.apiKeys kid now

/-! ## C1 -/

/-- C1: for an API key whose owning account is not premium, on either
capability's verifier the call is denied (with the message containing
"Free tier limit reached") exactly when the lifetime `usageCount` is at least
5; below 5 the call succeeds and the stored counter grows by exactly 1 — the
code has no path that resets it. -/
theorem C1_free_lifetime_cap
    (db db2 : DB) (now now2 : Int) (s s2 : String)
    (k k2 : ApiKeyRec) (u u2 : UserRec) (c c2 : Nat)
    (hpre : strStarts s "unrepo_research_" = true)
    (hlook : lookupActiveKey db s KeyType.RESEARCH = some (k, u))
    (hfree : (u.paymentVerified || u.isTokenHolder) = false)
    (hcount : keyCount db k.id = some c)
    (hpre2 : strStarts s2 "unrepo_chatbot_" = true)
    (hlook2 : lookupActiveKey db2 s2 KeyType.CHATBOT = some (k2, u2))
    (hfree2 : (u2.paymentVerified || u2.isTokenHolder) = false)
    (hcount2 : keyCount db2 k2.id = some c2) :
    (5 ≤ k.usageCount → verifyApiKeyResearch db now s = .error freeLimitMsg) ∧
    (k.usageCount < 5 →
       verifyApiKeyResearch db now s = .ok (k, u, incrementKey db k.id now) ∧
       keyCount (incrementKey db k.id now) k.id = some (c + 1)) ∧
    strIncludes freeLimitMsg "Free tier limit reached" = true ∧
    (5 ≤ k2.usageCount → verifyApiKeyChatbot db2 now2 s2 = .error freeLimitMsg) ∧
    (k2.usageCount < 5 →
       verifyApiKeyChatbot db2 now2 s2 = .ok (k2, u2, incrementKey db2 k2.id now2) ∧
       keyCount (incrementKey db2 k2.id now2) k2.id = some (c2 + 1)) := by
  refine ⟨?_, ?_, by decide, ?_, ?_⟩
  · intro h5
    simp [verifyApiKeyResearch, decideResearchKey, hpre, hlook, hfree, h5]
  · intro h5
    have h5' : ¬ (5 ≤ k.usageCount) := Nat.not_le.mpr h5
    refine ⟨?_, ?_⟩
    · simp [verifyApiKeyResearch, decideResearchKey, hpre, hlook, hfree, h5']
    · rw [keyCount_incrementKey, hcount]
      rfl
  · intro h5
    simp [verifyApiKeyChatbot, decideChatbotKey, hpre2, hlook2, hfree2, h5]
  · intro h5
    have h5' : ¬ (5 ≤ k2.usageCount) := Nat.not_le.mpr h5
    refine ⟨?_, ?_⟩
    · simp [verifyApiKeyChatbot, decideChatbotKey, hpre2, hlook2, hfree2, h5']
    · rw [keyCount_incrementKey, hcount2]
      rfl

/-- C1 witness: a free research key at 4 of 5 is allowed and moves to 5; a free
chatbot key at 5 is denied with the free-tier message. -/
theorem C1_free_lifetime_cap_witness :
    verifyApiKeyResearch (exDbR 4) 0 "unrepo_research_abc"
        = .ok (exResearchKey 4, exFreeUser, incrementKey (exDbR 4) (exResearchKey 4).id 0) ∧
    keyCount (incrementKey (exDbR 4) (exResearchKey 4).id 0) (exResearchKey 4).id = some 5 ∧
    verifyApiKeyChatbot (exDbC 5) 0 "unrepo_chatbot_abc" = .error freeLimitMsg := by
  have h := C1_free_lifetime_cap (exDbR 4) (exDbC 5) 0 0 "unrepo_research_abc" "unrepo_chatbot_abc"
      (exResearchKey 4) (exChatKey 5) exFreeUser exFreeUser 4 5
      (by decide) rfl rfl rfl (by decide) rfl rfl rfl
  exact ⟨(h.2.1 (by decide)).1, (h.2.1 (by decide)).2, h.2.2.2.1 (by decide)⟩

/-! ## C5 -/

/-- C5: a bearer string without the expected `unrepo_<capability>_` mark is
rejected as malformed by the verifier uniformly in the store — the outcome does
not depend on `db`, so no storage lookup can have influenced it; in particular
a research key presented to the chatbot verifier is malformed there.  A
well-formed string whose active lookup is empty (no such key, wrong kind, or
inactive — the lookup predicate requires `isActive`) fails with the not-found
message, and a store whose matching keys are all inactive yields an empty
lookup. -/
theorem C5_malformed_before_lookup :
    (∀ (s : String) (db : DB) (now : Int), strStarts s "unrepo_chatbot_" = false →
        verifyApiKeyChatbot db now s = .error chatbotMalformedMsg) ∧
    (∀ (s : String) (db : DB) (now : Int), strStarts s "unrepo_research_" = false →
        verifyApiKeyResearch db now s = .error researchMalformedMsg) ∧
    strStarts "unrepo_research_xxx" "unrepo_chatbot_" = false ∧
    (∀ (s : String) (db : DB) (now : Int), strStarts s "unrepo_chatbot_" = true →
        lookupActiveKey db s KeyType.CHATBOT = none →
        verifyApiKeyChatbot db now s = .error keyNotFoundMsg) ∧
    (∀ (s : String) (db : DB) (now : Int), strStarts s "unrepo_research_" = true →
        lookupActiveKey db s KeyType.RESEARCH = none →
        verifyApiKeyResearch db now s = .error keyNotFoundMsg) ∧
    (∀ (db : DB) (s : String) (t : KeyType), (∀ k ∈ db.apiKeys, k.isActive = false) →
        lookupActiveKey db s t = none) := by
  refine ⟨?_, ?_, by decide, ?_, ?_, ?_⟩
  · intro s db now h
    simp [verifyApiKeyChatbot, decideChatbotKey, h]
  · intro s db now h
    simp [verifyApiKeyResearch, decideResearchKey, h]
  · intro s db now h hl
    simp [verifyApiKeyChatbot, decideChatbotKey, h, hl]
  · intro s db now h hl
    simp [verifyApiKeyResearch, decideResearchKey, h, hl]
  · intro db s t hin
    have : db.apiKeys.find? (fun k => k.key == s && decide (k.type = t) && k.isActive) = none := by
      rw [List.find?_eq_none]
      intro k hk
      simp [hin k hk]
    simp [lookupActiveKey, this]

/-- C5 witness: the research-keyed bearer string is rejected by the chatbot
verifier on the empty store, and an unknown well-formed key is not found. -/
theorem C5_malformed_before_lookup_witness :
    verifyApiKeyChatbot exEmptyDb 0 "unrepo_research_xxx" = .error chatbotMalformedMsg ∧
    verifyApiKeyChatbot exEmptyDb 0 "unrepo_chatbot_zzz" = .error keyNotFoundMsg :=
  ⟨C5_malformed_before_lookup.1 "unrepo_research_xxx" exEmptyDb 0 (by decide),
   C5_malformed_before_lookup.2.2.2.1 "unrepo_chatbot_zzz" exEmptyDb 0 (by decide) rfl⟩

/-! ## C3 -/

/-- C3: for a premium account's key, each verifier counts this key's usage
events with `createdAt` within the trailing 3600000 ms of now and denies with
the rate-limit message exactly when that count reaches the capability ceiling
(100 research, 200 chat); below the ceiling the call is allowed (and logged
usage incremented).  Prepending an event older than one hour leaves the window
count unchanged, while an in-window event for the key raises it by one. -/
theorem C3_premium_rolling_window
    (db db2 : DB) (now now2 : Int) (s s2 : String)
    (k k2 : ApiKeyRec) (u u2 : UserRec)
    (hpre : strStarts s "unrepo_research_" = true)
    (hlook : lookupActiveKey db s KeyType.RESEARCH = some (k, u))
    (hprem : (u.paymentVerified || u.isTokenHolder) = true)
    (hpre2 : strStarts s2 "unrepo_chatbot_" = true)
    (hlook2 : lookupActiveKey db2 s2 KeyType.CHATBOT = some (k2, u2))
    (hprem2 : (u2.paymentVerified || u2.isTokenHolder) = true) :
    (100 ≤ countRecent db k.id now → verifyApiKeyResearch db now s = .error researchRateMsg) ∧
    (countRecent db k.id now < 100 →
       verifyApiKeyResearch db now s = .ok (k, u, incrementKey db k.id now)) ∧
    (200 ≤ countRecent db2 k2.id now2 → verifyApiKeyChatbot db2 now2 s2 = .error chatbotRateMsg) ∧
    (countRecent db2 k2.id now2 < 200 →
       verifyApiKeyChatbot db2 now2 s2 = .ok (k2, u2, incrementKey db2 k2.id now2)) ∧
    (∀ (d : DB) (e : UsageEvent) (kid : Nat) (t : Int), e.createdAt < t - 3600000 →
        countRecent { d with usage := e :: d.usage } kid t = countRecent d kid t) ∧
    (∀ (d : DB) (e : UsageEvent) (kid : Nat) (t : Int),
        e.apiKeyId = some kid → t - 3600000 ≤ e.createdAt →
        countRecent { d with usage := e :: d.usage } kid t = countRecent d kid t + 1) := by
  refine ⟨?_, ?_, ?_, ?_, ?_, ?_⟩
  · intro h
    simp [verifyApiKeyResearch, decideResearchKey, hpre, hlook, hprem, h]
  · intro h
    have h' : ¬ (100 ≤ countRecent db k.id now) := Nat.not_le.mpr h
    simp [verifyApiKeyResearch, decideResearchKey, hpre, hlook, hprem, h']
  · intro h
    simp [verifyApiKeyChatbot, decideChatbotKey, hpre2, hlook2, hprem2, h]
  · intro h
    have h' : ¬ (200 ≤ countRecent db2 k2.id now2) := Nat.not_le.mpr h
    simp [verifyApiKeyChatbot, decideChatbotKey, hpre2, hlook2, hprem2, h']
  · intro d e kid t he
    have h' : ¬ (t ≤ e.createdAt + 3600000) := by omega
    simp [countRecent, List.filter_cons, h']
  · intro d e kid t hk ht
    have h' : t ≤ e.createdAt + 3600000 := by omega
    simp [countRecent, List.filter_cons, hk, h']

set_option maxRecDepth 4000 in
/-- C3 witness: at 100 in-window events the 101st research call is denied, at
99 it is allowed; at 200 the chat call is denied; an event at -1 ms is outside
the window anchored at 3600000 ms and does not count, an in-window one does. -/
theorem C3_premium_rolling_window_witness :
    verifyApiKeyResearch (exPremDbR 100) 3600000 "unrepo_research_abc" = .error researchRateMsg ∧
    verifyApiKeyResearch (exPremDbR 99) 3600000 "unrepo_research_abc"
      = .ok (exPremResearchKey 0, exPremUser, incrementKey (exPremDbR 99) (exPremResearchKey 0).id 3600000) ∧
    verifyApiKeyChatbot (exPremDbC 200) 3600000 "unrepo_chatbot_abc" = .error chatbotRateMsg ∧
    countRecent { exPremDbR 99 with usage := exOldEvent :: (exPremDbR 99).usage } 12 3600000
      = countRecent (exPremDbR 99) 12 3600000 ∧
    countRecent { exPremDbR 99 with usage := exEventR :: (exPremDbR 99).usage } 12 3600000
      = countRecent (exPremDbR 99) 12 3600000 + 1 := by
  have hA := C3_premium_rolling_window (exPremDbR 100) (exPremDbC 200) 3600000 3600000
      "unrepo_research_abc" "unrepo_chatbot_abc" (exPremResearchKey 0) (exPremChatKey 0)
      exPremUser exPremUser (by decide) rfl rfl (by decide) rfl rfl
  have hB := C3_premium_rolling_window (exPremDbR 99) (exPremDbC 200) 3600000 3600000
      "unrepo_research_abc" "unrepo_chatbot_abc" (exPremResearchKey 0) (exPremChatKey 0)
      exPremUser exPremUser (by decide) rfl rfl (by decide) rfl rfl
  exact ⟨hA.1 (by decide), hB.2.1 (by decide), hA.2.2.1 (by decide),
    hB.2.2.2.2.1 (exPremDbR 99) exOldEvent 12 3600000 (by decide),
    hB.2.2.2.2.2 (exPremDbR 99) exEventR 12 3600000 rfl (by decide)⟩

/-! ## C2 -/

/-- C2 (amended): on the wallet /usage route a registered token-holder wallet
is allowed (200) unconditionally for both capabilities, whatever its counters,
with the counter still incremented — and since the limit check is skipped for
every token holder, those increments can never cause a /usage denial.  The
chatbot endpoint's wallet verification, however, applies the
`chatUsed >= chatLimit` check to every registered wallet regardless of
`isTokenHolder`, denying at the limit and incrementing below it. -/
theorem C2_token_holder_bypass_amended
    (db : DB) (addr : String) (w : WalletRec) (now : Int) (ty : String)
    (hw : findWallet db addr = some w)
    (hth : w.isTokenHolder = true)
    (hty : ty = "research" ∨ ty = "chat") :
    walletUsagePost db now (some addr) (some ty) = (200, incrementWalletUsage db addr ty now) ∧
    (∀ (db2 : DB) (addr2 : String) (w2 : WalletRec) (now2 : Int),
        findWallet db2 addr2 = some w2 → w2.chatLimit ≤ w2.chatUsed →
        verifyWalletAccess db2 now2 addr2 = .error (chatLimitMsg w2.chatLimit)) ∧
    (∀ (db2 : DB) (addr2 : String) (w2 : WalletRec) (now2 : Int),
        findWallet db2 addr2 = some w2 → w2.chatUsed < w2.chatLimit →
        verifyWalletAccess db2 now2 addr2 = .ok (w2, incrementWalletChat db2 addr2 now2)) := by
  refine ⟨?_, ?_, ?_⟩
  · rcases hty with h | h <;> subst h <;> simp [walletUsagePost, hw, hth]
  · intro db2 addr2 w2 now2 h2 hle
    simp [verifyWalletAccess, h2, hle]
  · intro db2 addr2 w2 now2 h2 hlt
    have h' : ¬ (w2.chatLimit ≤ w2.chatUsed) := not_le.mpr hlt
    simp [verifyWalletAccess, h2, h']

/-- C2 witness: a token-holder wallet with both counters at their limits is
still allowed on /usage for research and chat, yet the same wallet is denied
chat by the chatbot endpoint's wallet verification. -/
theorem C2_token_holder_bypass_amended_witness :
    walletUsagePost (exWalletDb 1 1 5 5 true) 0 (some "wallet1") (some "research")
      = (200, incrementWalletUsage (exWalletDb 1 1 5 5 true) "wallet1" "research" 0) ∧
    walletUsagePost (exWalletDb 1 1 5 5 true) 0 (some "wallet1") (some "chat")
      = (200, incrementWalletUsage (exWalletDb 1 1 5 5 true) "wallet1" "chat" 0) ∧
    verifyWalletAccess (exWalletDb 1 1 5 5 true) 0 "wallet1" = .error (chatLimitMsg 5) := by
  have hR := C2_token_holder_bypass_amended (exWalletDb 1 1 5 5 true) "wallet1" (exWallet 1 1 5 5 true) 0 "research"
      rfl rfl (Or.inl rfl)
  have hC := C2_token_holder_bypass_amended (exWalletDb 1 1 5 5 true) "wallet1" (exWallet 1 1 5 5 true) 0 "chat"
      rfl rfl (Or.inr rfl)
  exact ⟨hR.1, hC.1,
    hR.2.1 (exWalletDb 1 1 5 5 true) "wallet1" (exWallet 1 1 5 5 true) 0 rfl (by decide)⟩

/-- C2 counterexample: a registered wallet with `isTokenHolder = true` whose
`chatUsed` equals `chatLimit` is denied by the chatbot endpoint's wallet
enforcement, refuting unconditional Allow for token holders on the chat
capability. -/
theorem C2_counterexample :
    (exWallet 0 1 5 5 true).isTokenHolder = true ∧
    verifyWalletAccess (exWalletDb 0 1 5 5 true) 0 "wallet1" = .error (chatLimitMsg 5) :=
  ⟨rfl, rfl⟩

/-! ## C4 -/

/-- C4: the read-then-increment is not atomic — under the schedule where both
concurrent requests complete their reads before either write (the read and the
write are separate awaited storage calls with no transaction), a free key at
`usageCount = 4` grants both requests and the counter ends at 6, exceeding the
limit of 5. -/
theorem C4_race_both_granted :
    (interleavedResearchPair (exDbR 4) 0 "unrepo_research_abc").1 = true ∧
    (interleavedResearchPair (exDbR 4) 0 "unrepo_research_abc").2.1 = true ∧
    keyCount (interleavedResearchPair (exDbR 4) 0 "unrepo_research_abc").2.2
        (exResearchKey 4).id = some 6 ∧
    (exResearchKey 4).usageCount = 4 ∧
    (exFreeUser.paymentVerified || exFreeUser.isTokenHolder) = false := by
  decide

/-! ## C10 -/

/-- C10: for a registered wallet, GET /validate with a `type` that is absent or
neither "research" nor "chat" reports valid regardless of the counters; only an
explicit "research" or "chat" type compares the matching counter to its limit. -/
theorem C10_validate_type_guard
    (db : DB) (addr : String) (w : WalletRec) (ty : Option String)
    (hw : findWallet db addr = some w)
    (hr : ty ≠ some "research") (hc : ty ≠ some "chat") :
    walletValidateGet db (some addr) ty
      = .ok true w.researchUsed w.researchLimit w.chatUsed w.chatLimit ∧
    walletValidateGet db (some addr) (some "research")
      = .ok (decide (w.researchUsed < w.researchLimit)) w.researchUsed w.researchLimit w.chatUsed w.chatLimit ∧
    walletValidateGet db (some addr) (some "chat")
      = .ok (decide (w.chatUsed < w.chatLimit)) w.researchUsed w.researchLimit w.chatUsed w.chatLimit := by
  refine ⟨?_, ?_, ?_⟩
  · simp [walletValidateGet, hw, hr, hc]
  · simp [walletValidateGet, hw]
  · simp [walletValidateGet, hw]

/-- C10 witness: a wallet with both counters exhausted validates as true for a
bogus type and for an absent type, but as false for type "research". -/
theorem C10_validate_type_guard_witness :
    walletValidateGet (exWalletDb 1 1 5 5 false) (some "wallet1") (some "bogus")
      = .ok true 1 1 5 5 ∧
    walletValidateGet (exWalletDb 1 1 5 5 false) (some "wallet1") none
      = .ok true 1 1 5 5 ∧
    walletValidateGet (exWalletDb 1 1 5 5 false) (some "wallet1") (some "research")
      = .ok false 1 1 5 5 := by
  have h1 := C10_validate_type_guard (exWalletDb 1 1 5 5 false) "wallet1" (exWallet 1 1 5 5 false)
      (some "bogus") rfl (by decide) (by decide)
  have h2 := C10_validate_type_guard (exWalletDb 1 1 5 5 false) "wallet1" (exWallet 1 1 5 5 false)
      none rfl (by decide) (by decide)
  exact ⟨h1.1, h2.1, h1.2.1.trans (by decide)⟩

/-! ## Substring lemmas for the catch-block status mapping -/

theorem listStarts_nil (l : List Char) : listStarts l [] = true := by
  cases l <;> rfl

theorem listStarts_append (pat s rest : List Char) (h : listStarts s pat = true) :
    listStarts (s ++ rest) pat = true := by
  induction pat generalizing s with
  | nil => exact listStarts_nil _
  | cons p ps ih =>
    cases s with
    | nil => simp [listStarts] at h
    | cons c cs =>
      simp only [List.cons_append, listStarts, Bool.and_eq_true] at h ⊢
      exact ⟨h.1, ih cs h.2⟩

theorem listHas_nilPat (l : List Char) : listHas l [] = true := by
  cases l <;> simp [listHas, listStarts_nil]

theorem listHas_append (l pat rest : List Char) (h : listHas l pat = true) :
    listHas (l ++ rest) pat = true := by
  induction l with
  | nil =>
    have hp : pat = [] := by
      cases pat with
      | nil => rfl
      | cons p ps => simp [listHas] at h
    subst hp
    exact listHas_nilPat _
  | cons c tl ih =>
    simp only [listHas, Bool.or_eq_true] at h
    simp only [List.cons_append, listHas, Bool.or_eq_true]
    rcases h with h | h
    · exact Or.inl (listStarts_append _ _ _ h)
    · exact Or.inr (ih h)

theorem strIncludes_append_left (a b pat : String) (h : strIncludes a pat = true) :
    strIncludes (a ++ b) pat = true := by
  unfold strIncludes at h ⊢
  rw [String.data_append]
  exact listHas_append _ _ _ h

/-- Every instance of the chat-limit message contains "limit". -/
theorem chatLimitMsg_has_limit (n : Nat) : strIncludes (chatLimitMsg n) "limit" = true := by
  unfold chatLimitMsg
  exact strIncludes_append_left _ _ _ (strIncludes_append_left _ _ _ (by decide))

theorem chatbotCatchStatus_chatLimit (n : Nat) : chatbotCatchStatus (chatLimitMsg n) = 429 := by
  unfold chatbotCatchStatus
  rw [chatLimitMsg_has_limit]
  rfl


/-! ## C6 -/

/-- C6 counterexample: a malformed bearer string is an authentication failure
(the verifier rejects it with the malformed-key message), yet the research
handler answers 429 — the quota status — because the message contains
"Invalid", refuting the claim that authentication failures are answered 401. -/
theorem C6_counterexample :
    verifyApiKeyResearch exEmptyDb 0 "not-a-key" = .error researchMalformedMsg ∧
    researchPost exEmptyDb 0 (some "not-a-key") none = (429, exEmptyDb) := ⟨rfl, rfl⟩

/-- C6 (amended): only a missing credential is answered 401; malformed-key,
unknown/inactive-key, free-limit, rate-limit, wallet-not-registered and wallet
chat-limit failures are all answered 429 by the catch blocks, whose status is a
substring test on the thrown message — authentication failures (other than a
missing credential) and quota failures are conflated into 429. -/
theorem C6_status_conflation_amended :
    (∀ (db : DB) (now : Int) (r : Option String), researchPost db now none r = (401, db)) ∧
    (∀ (db : DB) (now : Int) (m : Option String), chatbotPost db now none none m = (401, db)) ∧
    (∀ (db : DB) (now : Int) (s : String) (r : Option String) (msg : String),
        verifyApiKeyResearch db now s = .error msg →
        researchPost db now (some s) r = (researchCatchStatus msg, db)) ∧
    (∀ (db : DB) (now : Int) (s : String) (wh m : Option String) (msg : String),
        verifyApiKeyChatbot db now s = .error msg →
        chatbotPost db now (some s) wh m = (chatbotCatchStatus msg, db)) ∧
    (∀ (db : DB) (now : Int) (addr : String) (m : Option String) (msg : String),
        verifyWalletAccess db now addr = .error msg →
        chatbotPost db now none (some addr) m = (chatbotCatchStatus msg, db)) ∧
    researchCatchStatus researchMalformedMsg = 429 ∧
    researchCatchStatus keyNotFoundMsg = 429 ∧
    researchCatchStatus freeLimitMsg = 429 ∧
    researchCatchStatus researchRateMsg = 429 ∧
    chatbotCatchStatus chatbotMalformedMsg = 429 ∧
    chatbotCatchStatus keyNotFoundMsg = 429 ∧
    chatbotCatchStatus freeLimitMsg = 429 ∧
    chatbotCatchStatus chatbotRateMsg = 429 ∧
    chatbotCatchStatus walletNotRegisteredMsg = 429 ∧
    (∀ n : Nat, chatbotCatchStatus (chatLimitMsg n) = 429) := by
  refine ⟨?_, ?_, ?_, ?_, ?_, by decide, by decide, by decide, by decide, by decide,
    by decide, by decide, by decide, by decide, chatbotCatchStatus_chatLimit⟩
  · intro db now r; rfl
  · intro db now m; rfl
  · intro db now s r msg h; simp [researchPost, h]
  · intro db now s wh m msg h; simp [chatbotPost, h]
  · intro db now addr m msg h; simp [chatbotPost, h]

/-- C6 witness: missing header gives 401; a free key at its limit gives 429;
a wallet at its chat limit gives 429 on the chatbot endpoint. -/
theorem C6_status_conflation_amended_witness :
    researchPost exEmptyDb 0 none none = (401, exEmptyDb) ∧
    researchPost (exDbR 5) 0 (some "unrepo_research_abc") none = (429, exDbR 5) ∧
    chatbotPost (exWalletDb 0 1 5 5 false) 0 none (some "wallet1") (some "hi")
      = (429, exWalletDb 0 1 5 5 false) := by
  have h := C6_status_conflation_amended
  refine ⟨h.1 exEmptyDb 0 none, ?_, ?_⟩
  · rw [h.2.2.1 (exDbR 5) 0 "unrepo_research_abc" none freeLimitMsg rfl]
    decide
  · rw [h.2.2.2.2.1 (exWalletDb 0 1 5 5 false) 0 "wallet1" (some "hi") (chatLimitMsg 5) rfl]
    decide

/-! ## Lemmas for wallet registration -/

theorem find?_append_single {α : Type} (p : α → Bool) (l : List α) (a : α) :
    l.find? p = none → p a = true → (l ++ [a]).find? p = some a := by
  induction l with
  | nil =>
    intro _ ha
    rw [List.nil_append, List.find?_cons_of_pos _ ha]
  | cons x tl ih =>
    intro h ha
    rw [List.find?_eq_none] at h
    have hx : ¬ (p x = true) := h x (by simp)
    rw [List.cons_append, List.find?_cons_of_neg _ hx]
    exact ih (List.find?_eq_none.mpr (fun y hy => h y (by simp [hy]))) ha

theorem find?_counters_map_token (l : List WalletRec) (addr a2 : String) (tv : TokenVerif) (now : Int) :
    ((l.map (fun w => if w.walletAddress == a2 then
          { w with isTokenHolder := true, tokenBalance := tv.tokenBalance, lastTokenCheck := some now }
        else w)).find? (fun w => w.walletAddress == addr)).map
        (fun w => (w.researchUsed, w.researchLimit, w.chatUsed, w.chatLimit))
    = (l.find? (fun w => w.walletAddress == addr)).map
        (fun w => (w.researchUsed, w.researchLimit, w.chatUsed, w.chatLimit)) := by
  induction l with
  | nil => rfl
  | cons w tl ih =>
    simp only [List.map_cons]
    by_cases h2 : w.walletAddress = a2
    · rw [if_pos (by simp [h2])]
      by_cases ha : w.walletAddress = addr
      · rw [List.find?_cons_of_pos _ (by simp [ha]), List.find?_cons_of_pos _ (by simp [ha])]
        rfl
      · rw [List.find?_cons_of_neg _ (by simp [ha]), List.find?_cons_of_neg _ (by simp [ha])]
        exact ih
    · rw [if_neg (by simp [h2])]
      by_cases ha : w.walletAddress = addr
      · rw [List.find?_cons_of_pos _ (by simp [ha]), List.find?_cons_of_pos _ (by simp [ha])]
      · rw [List.find?_cons_of_neg _ (by simp [ha]), List.find?_cons_of_neg _ (by simp [ha])]
        exact ih

theorem filterLen_map_token (l : List WalletRec) (addr a2 : String) (tv : TokenVerif) (now : Int) :
    ((l.map (fun w => if w.walletAddress == a2 then
          { w with isTokenHolder := true, tokenBalance := tv.tokenBalance, lastTokenCheck := some now }
        else w)).filter (fun w => w.walletAddress == addr)).length
    = (l.filter (fun w => w.walletAddress == addr)).length := by
  induction l with
  | nil => rfl
  | cons w tl ih =>
    simp only [List.map_cons]
    by_cases h2 : w.walletAddress = a2
    · rw [if_pos (by simp [h2])]
      by_cases ha : w.walletAddress = addr
      · rw [List.filter_cons_of_pos (by simp [ha]), List.filter_cons_of_pos (by simp [ha]),
          List.length_cons, List.length_cons, ih]
      · rw [List.filter_cons_of_neg (by simp [ha]), List.filter_cons_of_neg (by simp [ha])]
        exact ih
    · rw [if_neg (by simp [h2])]
      by_cases ha : w.walletAddress = addr
      · rw [List.filter_cons_of_pos (by simp [ha]), List.filter_cons_of_pos (by simp [ha]),
          List.length_cons, List.length_cons, ih]
      · rw [List.filter_cons_of_neg (by simp [ha]), List.filter_cons_of_neg (by simp [ha])]
        exact ih

theorem walletCounters_applyTokenCheck (db : DB) (addr a2 : String)
    (tc : Except Unit TokenVerif) (now : Int) :
    walletCounters (applyTokenCheck db a2 tc now) addr = walletCounters db addr := by
  unfold walletCounters findWallet applyTokenCheck
  cases tc with
  | error e => rfl
  | ok tv =>
    by_cases h : tv.isTokenHolder
    · simp only [h, if_true]
      exact find?_counters_map_token db.wallets addr a2 tv now
    · simp [h]

theorem walletRows_applyTokenCheck (db : DB) (addr a2 : String)
    (tc : Except Unit TokenVerif) (now : Int) :
    walletRows (applyTokenCheck db a2 tc now) addr = walletRows db addr := by
  unfold walletRows applyTokenCheck
  cases tc with
  | error e => rfl
  | ok tv =>
    by_cases h : tv.isTokenHolder
    · simp only [h, if_true]
      exact filterLen_map_token db.wallets addr a2 tv now
    · simp [h]


/-! ## C7 -/

/-- C7: when no wallet exists for the address, a signature verification that
completes and returns false makes registration answer 401 with the store
untouched (no record created); a verification that throws is only logged and
registration proceeds, answering 200 and adding exactly one wallet row for the
address. -/
theorem C7_signature_failure_modes
    (db : DB) (now : Int) (addr sig msg : String) (tc tc2 : Except Unit TokenVerif)
    (hw : findWallet db addr = none) :
    registerWallet db now (.ok false) tc (some addr) (some sig) (some msg) = (401, db, none) ∧
    (registerWallet db now (.error ()) tc2 (some addr) (some sig) (some msg)).1 = 200 ∧
    walletRows (registerWallet db now (.error ()) tc2 (some addr) (some sig) (some msg)).2.1 addr
      = walletRows db addr + 1 := by
  refine ⟨?_, ?_, ?_⟩
  · simp [registerWallet, hw]
  · simp [registerWallet, hw]
  · simp only [registerWallet, hw]
    rw [walletRows_applyTokenCheck]
    unfold walletRows
    rw [List.filter_append, List.length_append]
    simp [newWalletRec]

/-- C7 witness: on the empty store, a false verification yields 401 and no
record; a throwing verification yields 200 and one new record. -/
theorem C7_signature_failure_modes_witness :
    registerWallet exEmptyDb 0 (.ok false) (.error ()) (some "wallet1") (some "sig") (some "msg")
      = (401, exEmptyDb, none) ∧
    (registerWallet exEmptyDb 0 (.error ()) (.error ()) (some "wallet1") (some "sig") (some "msg")).1 = 200 ∧
    walletRows (registerWallet exEmptyDb 0 (.error ()) (.error ())
        (some "wallet1") (some "sig") (some "msg")).2.1 "wallet1"
      = walletRows exEmptyDb "wallet1" + 1 :=
  C7_signature_failure_modes exEmptyDb 0 "wallet1" "sig" "msg" (.error ()) (.error ()) rfl

/-! ## C8 -/

/-- C8: registration is idempotent on the address — if a wallet record exists,
any further register call (any signature, message, verification outcome and
token oracle) answers 200 with the store unchanged and echoes the existing
counters; a first-time registration (no record, verification true) answers 200,
echoes counters 0/1/0/5 and stores a record with researchUsed = 0,
researchLimit = 1, chatUsed = 0, chatLimit = 5. -/
theorem C8_idempotent_registration
    (db : DB) (now : Int) (addr sig msg : String) (w : WalletRec)
    (vr : Except Unit Bool) (tc : Except Unit TokenVerif)
    (hw : findWallet db addr = some w)
    (db2 : DB) (now2 : Int) (addr2 sig2 msg2 : String) (tc2 : Except Unit TokenVerif)
    (hw2 : findWallet db2 addr2 = none) :
    registerWallet db now vr tc (some addr) (some sig) (some msg)
      = (200, db, some (w.researchUsed, w.researchLimit, w.chatUsed, w.chatLimit)) ∧
    (registerWallet db2 now2 (.ok true) tc2 (some addr2) (some sig2) (some msg2)).1 = 200 ∧
    (registerWallet db2 now2 (.ok true) tc2 (some addr2) (some sig2) (some msg2)).2.2
      = some (0, 1, 0, 5) ∧
    walletCounters (registerWallet db2 now2 (.ok true) tc2
        (some addr2) (some sig2) (some msg2)).2.1 addr2
      = some (0, 1, 0, 5) := by
  refine ⟨by simp [registerWallet, hw], by simp [registerWallet, hw2],
    by simp [registerWallet, hw2], ?_⟩
  simp only [registerWallet, hw2]
  rw [walletCounters_applyTokenCheck]
  unfold walletCounters findWallet
  have hw2' : db2.wallets.find? (fun w => w.walletAddress == addr2) = none := hw2
  rw [find?_append_single _ _ _ hw2' (by simp [newWalletRec])]
  rfl

/-- C8 witness: re-registering an existing wallet (even with a failing
signature) returns its current counters 1/1/3/5 unchanged; a fresh registration
stores and returns 0/1/0/5 even when the token oracle marks the wallet a
holder. -/
theorem C8_idempotent_registration_witness :
    registerWallet (exWalletDb 1 1 3 5 false) 0 (.ok false) (.error ())
        (some "wallet1") (some "sig2") (some "msg2")
      = (200, exWalletDb 1 1 3 5 false, some (1, 1, 3, 5)) ∧
    (registerWallet exEmptyDb 0 (.ok true) (.ok { isTokenHolder := true, tokenBalance := 2000000, threshold := 1000000 })
        (some "wallet1") (some "sig") (some "msg")).1 = 200 ∧
    (registerWallet exEmptyDb 0 (.ok true) (.ok { isTokenHolder := true, tokenBalance := 2000000, threshold := 1000000 })
        (some "wallet1") (some "sig") (some "msg")).2.2 = some (0, 1, 0, 5) ∧
    walletCounters (registerWallet exEmptyDb 0 (.ok true) (.ok { isTokenHolder := true, tokenBalance := 2000000, threshold := 1000000 })
        (some "wallet1") (some "sig") (some "msg")).2.1 "wallet1" = some (0, 1, 0, 5) :=
  C8_idempotent_registration (exWalletDb 1 1 3 5 false) 0 "wallet1" "sig2" "msg2" (exWallet 1 1 3 5 false)
    (.ok false) (.error ()) rfl
    exEmptyDb 0 "wallet1" "sig" "msg"
    (.ok { isTokenHolder := true, tokenBalance := 2000000, threshold := 1000000 }) rfl

theorem verifyResearch_ok_db (db : DB) (now : Int) (s : String)
    (k : ApiKeyRec) (u : UserRec) (db1 : DB)
    (h : verifyApiKeyResearch db now s = .ok (k, u, db1)) :
    db1 = incrementKey db k.id now := by
  unfold verifyApiKeyResearch at h
  cases hd : decideResearchKey db now s with
  | error e => rw [hd] at h; cases h
  | ok p =>
    obtain ⟨k', u'⟩ := p
    rw [hd] at h
    simp only [Except.ok.injEq, Prod.mk.injEq] at h
    obtain ⟨h1, _h2, h3⟩ := h
    rw [← h3, h1]

theorem verifyChatbot_ok_db (db : DB) (now : Int) (s : String)
    (k : ApiKeyRec) (u : UserRec) (db1 : DB)
    (h : verifyApiKeyChatbot db now s = .ok (k, u, db1)) :
    db1 = incrementKey db k.id now := by
  unfold verifyApiKeyChatbot at h
  cases hd : decideChatbotKey db now s with
  | error e => rw [hd] at h; cases h
  | ok p =>
    obtain ⟨k', u'⟩ := p
    rw [hd] at h
    simp only [Except.ok.injEq, Prod.mk.injEq] at h
    obtain ⟨h1, _h2, h3⟩ := h
    rw [← h3, h1]

theorem verifyWallet_ok_db (db : DB) (now : Int) (addr : String)
    (w : WalletRec) (db1 : DB)
    (h : verifyWalletAccess db now addr = .ok (w, db1)) :
    db1 = incrementWalletChat db addr now := by
  unfold verifyWalletAccess at h
  cases hf : findWallet db addr with
  | none => rw [hf] at h; cases h
  | some w0 =>
    rw [hf] at h
    dsimp only at h
    by_cases hl : w0.chatLimit ≤ w0.chatUsed
    · rw [if_pos hl] at h; cases h
    · rw [if_neg hl] at h
      simp only [Except.ok.injEq, Prod.mk.injEq] at h
      exact h.2.symm

/-! ## C9 -/

/-- C9 (amended): an accepted key-authenticated call (research or chatbot)
appends exactly one usage event carrying the owning account id, the key id
(always non-null), the endpoint, the method and the request summary — the
verification step itself leaves the ledger untouched; an accepted
wallet-authenticated chatbot call appends no usage event at all. -/
theorem C9_usage_ledger_amended
    (db : DB) (now : Int) (s url : String) (k : ApiKeyRec) (u : UserRec) (db1 : DB)
    (h : verifyApiKeyResearch db now s = .ok (k, u, db1))
    (db2 : DB) (now2 : Int) (s2 m2 : String) (k2 : ApiKeyRec) (u2 : UserRec) (db21 : DB)
    (h2 : verifyApiKeyChatbot db2 now2 s2 = .ok (k2, u2, db21))
    (db3 : DB) (now3 : Int) (addr m3 : String) (w3 : WalletRec) (db31 : DB)
    (h3 : verifyWalletAccess db3 now3 addr = .ok (w3, db31)) :
    researchPost db now (some s) (some url)
      = (200, pushUsage db1 k.userId (some k.id) "/api/v1/research" "POST" ("repoUrl=" ++ url) now) ∧
    (pushUsage db1 k.userId (some k.id) "/api/v1/research" "POST" ("repoUrl=" ++ url) now).usage
      = db.usage ++ [{ userId := k.userId, apiKeyId := some k.id, endpoint := "/api/v1/research",
                       method := "POST", requestData := "repoUrl=" ++ url, createdAt := now }] ∧
    chatbotPost db2 now2 (some s2) none (some m2)
      = (200, pushUsage db21 k2.userId (some k2.id) "/api/v1/chatbot" "POST" ("message=" ++ m2) now2) ∧
    (pushUsage db21 k2.userId (some k2.id) "/api/v1/chatbot" "POST" ("message=" ++ m2) now2).usage
      = db2.usage ++ [{ userId := k2.userId, apiKeyId := some k2.id, endpoint := "/api/v1/chatbot",
                        method := "POST", requestData := "message=" ++ m2, createdAt := now2 }] ∧
    chatbotPost db3 now3 none (some addr) (some m3) = (200, db31) ∧
    db31.usage = db3.usage := by
  have e1 : db1 = incrementKey db k.id now := verifyResearch_ok_db db now s k u db1 h
  have e2 : db21 = incrementKey db2 k2.id now2 := verifyChatbot_ok_db db2 now2 s2 k2 u2 db21 h2
  have e3 : db31 = incrementWalletChat db3 addr now3 := verifyWallet_ok_db db3 now3 addr w3 db31 h3
  refine ⟨?_, ?_, ?_, ?_, ?_, ?_⟩
  · simp [researchPost, h]
  · rw [e1]; rfl
  · simp [chatbotPost, h2]
  · rw [e2]; rfl
  · simp [chatbotPost, h3]
  · rw [e3]
    rfl

/-- C9 witness: a concrete accepted research key call logs its event, and a
concrete accepted wallet chat call leaves the ledger unchanged. -/
theorem C9_usage_ledger_amended_witness :
    researchPost (exDbR 0) 0 (some "unrepo_research_abc") (some "github.com/o/r")
      = (200, pushUsage (incrementKey (exDbR 0) (exResearchKey 0).id 0) (exResearchKey 0).userId
          (some (exResearchKey 0).id) "/api/v1/research" "POST" ("repoUrl=" ++ "github.com/o/r") 0) ∧
    chatbotPost (exWalletDb 0 1 0 5 false) 0 none (some "wallet1") (some "hi")
      = (200, incrementWalletChat (exWalletDb 0 1 0 5 false) "wallet1" 0) ∧
    (incrementWalletChat (exWalletDb 0 1 0 5 false) "wallet1" 0).usage
      = (exWalletDb 0 1 0 5 false).usage := by
  have h := C9_usage_ledger_amended (exDbR 0) 0 "unrepo_research_abc" "github.com/o/r"
      (exResearchKey 0) exFreeUser (incrementKey (exDbR 0) (exResearchKey 0).id 0) rfl
      (exDbC 0) 0 "unrepo_chatbot_abc" "hi"
      (exChatKey 0) exFreeUser (incrementKey (exDbC 0) (exChatKey 0).id 0) rfl
      (exWalletDb 0 1 0 5 false) 0 "wallet1" "hi"
      (exWallet 0 1 0 5 false) (incrementWalletChat (exWalletDb 0 1 0 5 false) "wallet1" 0) rfl
  exact ⟨h.1, h.2.2.2.2.1, h.2.2.2.2.2⟩

/-- C9 counterexample: an accepted wallet-authenticated chat call (status 200)
leaves the usage ledger empty, refuting that every accepted call produces
exactly one usage event. -/
theorem C9_counterexample :
    (chatbotPost (exWalletDb 0 1 0 5 false) 0 none (some "wallet1") (some "hi")).1 = 200 ∧
    (chatbotPost (exWalletDb 0 1 0 5 false) 0 none (some "wallet1") (some "hi")).2.usage = [] := by
  decide

end UnRepo
